import Mathlib

/-!
Verification development for the EVenture face-verification service
(`src/verification/app.py`).  The pipeline is embedded shallowly:

* file bytes are `List Nat`, pixel grids are `List (List Nat)`;
* the scratch storage (the `uploads` folder) is an association list from
  path to bytes where a write prepends, matching `open(path, 'wb')`
  overwrite semantics on lookup while keeping the old entries visible to
  the monotonicity proofs;
* the external capabilities (`base64.b64decode`, `cv2.imread`,
  `cv2.cvtColor`, the cascade detector, `cv2.imwrite`'s encoder and
  `DeepFace.verify`) are oracle fields of `Oracles`; an exception raised
  by `DeepFace.verify` is an `Except.error`, a `None`/unreadable result of
  `cv2.imread` is `none`;
* Python floats are modelled as rationals, so threshold comparisons are
  exact.
-/

namespace EVenture

/-- Raw file contents, as written to and read back from scratch storage. -/
abbrev Bytes := List Nat

/-- Pixel grids (the numpy arrays produced by `cv2.imread`), as a list of
rows; the pixel type is opaque to every claim, so a pixel is a `Nat`. -/
abbrev Grid := List (List Nat)

/-- Detector bounding box `(x, y, w, h)` as returned by
`detectMultiScale`. -/
structure Box where
  x : Nat
  y : Nat
  w : Nat
  h : Nat
deriving DecidableEq

/-- Scratch storage: an association list from file path to bytes.  A write
prepends, and lookups take the first (most recent) entry. -/
abbrev FS := List (String × Bytes)

/-- Model of `open(file_path, 'wb').write(bytes)`: the new entry shadows
any older entry for the same path. -/
def fsWrite (fs : FS) (p : String) (b : Bytes) : FS := (p, b) :: fs

/-- Read the current contents of a path, `none` when the file was never
written. -/
def fsLookup (fs : FS) (p : String) : Option Bytes :=
  (fs.find? (fun e => e.1 == p)).map (fun e => e.2)

/-- Existence of a path in scratch storage. -/
def fsHas (fs : FS) (p : String) : Bool :=
  fs.any (fun e => e.1 == p)

/-- External capabilities consumed by the pipeline, kept abstract exactly
where `app.py` delegates to a library. -/
structure Oracles where
  /-- Model of `base64.b64decode`; `none` models the raised
  `binascii.Error`. -/
  b64decode : List Char → Option Bytes
  /-- Model of `cv2.imread` applied to the bytes stored at the path;
  `none` models the `None` return for unreadable rasters. -/
  imdecode : Bytes → Option Grid
  /-- Model of `cv2.cvtColor(image, cv2.COLOR_BGR2GRAY)`. -/
  toGray : Grid → Grid
  /-- Model of the cascade detector's region proposals before the
  `minSize` filter of `detectMultiScale` is applied. -/
  rawDetect : Grid → List Box
  /-- Model of the encoder used by `cv2.imwrite`. -/
  imencode : Grid → Bytes
  /-- Model of `DeepFace.verify(...)["distance"]` applied to the bytes
  stored at the two cropped-face paths; `Except.error` models a raised
  exception. -/
  deepVerify : Option Bytes → Option Bytes → Except String ℚ

/-- Translation of `SIMILARITY_THRESHOLD = 0.55` (`app.py` line 17),
written with `mkRat` so that the kernel can evaluate comparisons;
`mkRat 55 100` is the rational 0.55. -/
def SIMILARITY_THRESHOLD : ℚ := mkRat 55 100

/-- Python `str.split` with a one-character separator, as used by
`base64_string.split(',')` (`app.py` line 31). -/
def pySplit (sep : Char) : List Char → List (List Char)
  | [] => [[]]
  | c :: rest =>
    if c = sep then [] :: pySplit sep rest
    else
      match pySplit sep rest with
      | [] => [[c]]
      | r :: rs => (c :: r) :: rs

/-- Python `str.replace` for the one-character pattern `"."` used by
`image_path.replace(".", "_cropped.")` (`app.py` line 65): every dot is
expanded to the replacement text, other characters are kept. -/
def pyReplaceDot (repl : List Char) (s : List Char) : List Char :=
  s.flatMap (fun c => if c = '.' then repl else [c])

/-- Translation of `image_path.replace(".", "_cropped.")`. -/
def cropped_path (image_path : String) : String :=
  String.mk (pyReplaceDot "_cropped.".data image_path.data)

/-- Translation of `save_base64_image` (`app.py` lines 26-43).  The Python
pair `(file_path, error)` is rendered as `Except`: `.ok` carries the path,
`.error` the exception message.  The `split(',')[1]` index error raised
when a `data:image` string has no comma is the `none` branch of
`payload?`. -/
def save_base64_image (o : Oracles) (fs : FS) (base64_string : List Char)
    (filename : String) : FS × Except String String :=
  let payload? : Option (List Char) :=
    if "data:image".data.isPrefixOf base64_string then
      (pySplit ',' base64_string)[1]?
    else some base64_string
  match payload? with
  | none => (fs, Except.error "list index out of range")
  | some base64_data =>
    match o.b64decode base64_data with
    | none => (fs, Except.error "Invalid base64-encoded string")
    | some image_data =>
      let file_path := "uploads/" ++ filename
      (fsWrite fs file_path image_data, Except.ok file_path)

/-- Translation of `face_cascade.detectMultiScale(gray, scaleFactor=1.1,
minNeighbors=5, minSize=(50, 50))` (`app.py` line 55): the detector's raw
proposals are filtered by the documented `minSize` semantics (regions
smaller than the minimum footprint are ignored); `scaleFactor` and
`minNeighbors` are internal to the `rawDetect` oracle. -/
def detectMultiScale (raw : Grid → List Box) (g : Grid) (minW minH : Nat) :
    List Box :=
  (raw g).filter (fun b => decide (minW ≤ b.w) && decide (minH ≤ b.h))

/-- Translation of the numpy slice `image[y:y+h, x:x+w]` (`app.py` line
62): take `h` rows starting at row `y`, and from each of those rows take
`w` entries starting at column `x`; out-of-range slices clamp, exactly as
numpy slicing does. -/
def cropGrid (image : Grid) (b : Box) : Grid :=
  ((image.drop b.y).take b.h).map (fun row => (row.drop b.x).take b.w)

/-- Translation of `extract_face` (`app.py` lines 45-68).  `cv2.imread`
returns `None` both for a missing file and for undecodable bytes, hence
the `Option.bind` through the storage lookup. -/
def extract_face (o : Oracles) (fs : FS) (image_path : String) :
    FS × Except String String :=
  match (fsLookup fs image_path).bind o.imdecode with
  | none => (fs, Except.error "Could not read image")
  | some image =>
    let gray := o.toGray image
    let faces := detectMultiScale o.rawDetect gray 50 50
    match faces with
    | [] => (fs, Except.error "No face detected in the image")
    | b :: _ =>
      let face := cropGrid image b
      let extracted_face_path := cropped_path image_path
      (fsWrite fs extracted_face_path (o.imencode face),
       Except.ok extracted_face_path)

/-- Shape of the dictionary returned by `match_faces`: a mandatory
`verified` flag and optional `error` / `similarity_score` entries. -/
structure MatchResult where
  verified : Bool
  error : Option String := none
  similarity_score : Option ℚ := none
deriving DecidableEq

/-- Body of `match_faces` (`app.py` lines 70-99), before the enclosing
`try`/`except`.  The only statement of the body that can raise is
`DeepFace.verify`, so the body's exception channel is exactly the
`deepVerify` error; files written before the raise stay written, which is
why the storage travels outside the `Except`. -/
def match_faces_body (o : Oracles) (fs : FS)
    (license_img_path selfie_img_path : String) :
    FS × Except String MatchResult :=
  match extract_face o fs license_img_path with
  | (fs1, Except.error error) =>
    (fs1, Except.ok { verified := false,
                      error := some ("License image error: " ++ error) })
  | (fs1, Except.ok license_face) =>
    match extract_face o fs1 selfie_img_path with
    | (fs2, Except.error error) =>
      (fs2, Except.ok { verified := false,
                        error := some ("Selfie image error: " ++ error) })
    | (fs2, Except.ok selfie_face) =>
      match o.deepVerify (fsLookup fs2 license_face)
          (fsLookup fs2 selfie_face) with
      | Except.error e => (fs2, Except.error e)
      | Except.ok similarity_score =>
        if SIMILARITY_THRESHOLD ≤ similarity_score then
          (fs2, Except.ok { verified := true,
                            similarity_score := some similarity_score })
        else
          (fs2, Except.ok { verified := false,
                            error := some "Face verification failed",
                            similarity_score := some similarity_score })

/-- Translation of `match_faces` (`app.py` lines 70-102): the body wrapped
in the `try`/`except` that converts any raised exception into a
`Processing error` result. -/
def match_faces (o : Oracles) (fs : FS)
    (license_img_path selfie_img_path : String) : FS × MatchResult :=
  match match_faces_body o fs license_img_path selfie_img_path with
  | (fs1, Except.ok r) => (fs1, r)
  | (fs1, Except.error e) =>
    (fs1, { verified := false, error := some ("Processing error: " ++ e) })

/-- Relevant fields of the JSON object delivered by `request.get_json()`;
a `none` field models a missing key. -/
structure Payload where
  userId : Option String
  license_base64 : Option (List Char)
  selfie_base64 : Option (List Char)

/-- An incoming HTTP request as seen by the `verify` endpoint. -/
structure Request where
  isJson : Bool
  data : Payload

/-- Flattened JSON response body together with the HTTP status code. -/
structure Response where
  verified : Bool
  error : Option String := none
  similarity_score : Option ℚ := none
  status : Nat
deriving DecidableEq

/-- Translation of the `verify` endpoint (`app.py` lines 104-139).  The
`uuid` argument stands for the freshly generated `str(uuid.uuid4())`.
Every expression of the model is total, so the final `except` branch
(status 500) of the Python code has no counterpart to take. -/
def verify (o : Oracles) (fs : FS) (req : Request) (uuid : String) :
    FS × Response :=
  if req.isJson = false then
    (fs, { verified := false, error := some "Request must be JSON",
           status := 400 })
  else
    match req.data.userId, req.data.license_base64, req.data.selfie_base64 with
    | some user_id, some license_b64, some selfie_b64 =>
      let license_filename := user_id ++ "_" ++ uuid ++ "_license.png"
      let selfie_filename := user_id ++ "_" ++ uuid ++ "_selfie.png"
      (match save_base64_image o fs license_b64 license_filename with
      | (fs1, Except.error license_error) =>
        (fs1, { verified := false,
                error := some ("License image error: " ++ license_error),
                status := 400 })
      | (fs1, Except.ok license_path) =>
        match save_base64_image o fs1 selfie_b64 selfie_filename with
        | (fs2, Except.error selfie_error) =>
          (fs2, { verified := false,
                  error := some ("Selfie image error: " ++ selfie_error),
                  status := 400 })
        | (fs2, Except.ok selfie_path) =>
          match match_faces o fs2 license_path selfie_path with
          | (fs3, r) =>
            (fs3, { verified := r.verified, error := r.error,
                    similarity_score := r.similarity_score, status := 200 }))
    | _, _, _ =>
      (fs, { verified := false, error := some "Missing required fields",
             status := 400 })

/-! Claim-side definitions.  `claimPayload` renders the frozen wording of
claim C6 ("only the portion after the first comma is base64-decoded"),
`secondField`/`amendedPayload` render the amended wording (the second
comma-separated field); both are compared against `save_base64_image`. -/

/-- Portion of the string after the first comma, as the original claim
words the data-URI rule; `none` when a prefixed string has no comma. -/
def claimPayload (s : List Char) : Option (List Char) :=
  if "data:image".data.isPrefixOf s then
    if ',' ∈ s then some ((s.dropWhile (fun c => c != ',')).tail) else none
  else some s

/-- Second comma-separated field of the string: the portion strictly
between the first comma and the following comma (or the end). -/
def secondField (s : List Char) : Option (List Char) :=
  if ',' ∈ s then
    some (((s.dropWhile (fun c => c != ',')).tail).takeWhile
      (fun c => c != ','))
  else none

/-- Payload selection as the amended claim words it. -/
def amendedPayload (s : List Char) : Option (List Char) :=
  if "data:image".data.isPrefixOf s then secondField s else some s

/-! Path bookkeeping for the scratch-storage claims. -/

/-- Upload path of the document image for a given user id and uuid. -/
def license_path_of (uid u : String) : String :=
  "uploads/" ++ (uid ++ "_" ++ u ++ "_license.png")

/-- Upload path of the selfie image for a given user id and uuid. -/
def selfie_path_of (uid u : String) : String :=
  "uploads/" ++ (uid ++ "_" ++ u ++ "_selfie.png")

/-- Every path a request with the given user id and uuid can write: the
two uploads and their cropped copies. -/
def requestPaths (uid u : String) : List String :=
  [license_path_of uid u, selfie_path_of uid u,
   cropped_path (license_path_of uid u), cropped_path (selfie_path_of uid u)]

/-- Fixed character-level suffixes of the four request paths (for a
dot-free uuid). -/
def reqSuffixes : List (List Char) :=
  ["_license.png".data, "_selfie.png".data,
   "_license_cropped.png".data, "_selfie_cropped.png".data]

/-! Concrete scenarios used by the witness and counterexample theorems. -/

/-- Oracle family in which every capability succeeds: any bytes decode to
a 2×2 grid, the detector proposes one region below the minimum footprint
and one exactly at it, and scoring returns the distance 3/2. -/
def oOk : Oracles where
  b64decode := fun _ => some [65]
  imdecode := fun _ => some [[0, 0], [0, 0]]
  toGray := fun g => g
  rawDetect := fun _ => [⟨0, 0, 10, 10⟩, ⟨0, 0, 50, 50⟩]
  imencode := fun _ => [9]
  deepVerify := fun _ _ => Except.ok (mkRat 3 2)

/-- Oracle family in which base64 decoding succeeds but no byte string is
a decodable raster (`cv2.imread` always returns `None`). -/
def oNoRaster : Oracles where
  b64decode := fun s => some (s.map Char.toNat)
  imdecode := fun _ => none
  toGray := fun g => g
  rawDetect := fun _ => []
  imencode := fun _ => []
  deepVerify := fun _ _ => Except.error "unreachable"

/-- Oracle family in which base64 decoding always fails. -/
def oB64Fail : Oracles where
  b64decode := fun _ => none
  imdecode := fun _ => none
  toGray := fun g => g
  rawDetect := fun _ => []
  imencode := fun _ => []
  deepVerify := fun _ _ => Except.error "unreachable"

/-- Oracle distinguishing the two comma-splitting readings of claim C6:
the field between the commas decodes to `[0]`, the whole portion after
the first comma decodes to `[1]`. -/
def oC6 : Oracles where
  b64decode := fun s =>
    if s = "QUJD".data then some [0]
    else if s = "QUJD,REVG".data then some [1] else none
  imdecode := fun _ => none
  toGray := fun g => g
  rawDetect := fun _ => []
  imencode := fun _ => []
  deepVerify := fun _ _ => Except.error "unreachable"

/-- Data-URI string whose base64 part itself contains a comma. -/
def twoCommaUri : List Char := "data:image/png;base64,QUJD,REVG".data

/-- Well-formed JSON request carrying all three required fields. -/
def reqFull : Request :=
  { isJson := true,
    data := { userId := some "u1", license_base64 := some "TElD".data,
              selfie_base64 := some "U0VM".data } }

/-- JSON request whose `userId` field is missing. -/
def reqNoUser : Request :=
  { isJson := true,
    data := { userId := none, license_base64 := some "TElD".data,
              selfie_base64 := some "U0VM".data } }

/-- Small scratch storage holding two readable images. -/
def fsW : FS := [("uploads/a.png", [65]), ("uploads/b.png", [66])]

/-! Facts about the Python split model. -/

theorem pySplit_ne_nil (sep : Char) (s : List Char) : pySplit sep s ≠ [] := by
  induction s with
  | nil => simp [pySplit]
  | cons c rest ih =>
    simp only [pySplit]
    split
    · simp
    · cases h : pySplit sep rest with
      | nil => simp
      | cons r rs => simp

theorem pySplit_head? (sep : Char) (s : List Char) :
    (pySplit sep s).head? = some (s.takeWhile (fun c => c != sep)) := by
  induction s with
  | nil => simp [pySplit]
  | cons c rest ih =>
    by_cases hc : c = sep
    · subst hc
      simp [pySplit, List.takeWhile_cons]
    · cases h : pySplit sep rest with
      | nil => exact absurd h (pySplit_ne_nil sep rest)
      | cons r rs =>
        rw [h] at ih
        simp only [List.head?_cons, Option.some.injEq] at ih
        simp [pySplit, if_neg hc, h, List.takeWhile_cons, hc, ih]

theorem pySplit_getElem1 (sep : Char) (s : List Char) :
    (pySplit sep s)[1]? =
      if sep ∈ s then
        some (((s.dropWhile (fun c => c != sep)).tail).takeWhile
          (fun c => c != sep))
      else none := by
  induction s with
  | nil => simp [pySplit]
  | cons c rest ih =>
    by_cases hc : c = sep
    · subst hc
      have h0 : (([] : List Char) :: pySplit c rest)[1]? =
          (pySplit c rest).head? := by
        cases h : pySplit c rest with
        | nil => exact absurd h (pySplit_ne_nil c rest)
        | cons r rs => simp
      simp [pySplit, h0, pySplit_head?, List.dropWhile_cons]
    · cases h : pySplit sep rest with
      | nil => exact absurd h (pySplit_ne_nil sep rest)
      | cons r rs =>
        rw [h] at ih
        have hmem : (sep ∈ c :: rest) ↔ (sep ∈ rest) := by
          constructor
          · intro hs
            rcases List.mem_cons.mp hs with h' | h'
            · exact absurd h'.symm hc
            · exact h'
          · exact fun hs => List.mem_cons_of_mem _ hs
        simp only [pySplit, if_neg hc, h, List.getElem?_cons_succ] at ih ⊢
        rw [ih]
        simp [List.dropWhile_cons, hc, hmem]

/-- C6 (amended): for every base64 image string, an optional data-URI
prefix is handled before decoding: if the string starts with
`data:image`, the second comma-separated field — the portion after the
first comma up to the next comma or the end of the string — is the
payload (a prefixed string with no comma is an error); otherwise the whole
string is the payload; the payload is base64-decoded and written, and a
payload that is not valid base64 yields an image error with no file
written. -/
theorem data_uri_second_field (o : Oracles) (fs : FS) (s : List Char)
    (filename : String) :
    save_base64_image o fs s filename =
      match amendedPayload s with
      | none => (fs, Except.error "list index out of range")
      | some p =>
        match o.b64decode p with
        | none => (fs, Except.error "Invalid base64-encoded string")
        | some image_data =>
          (fsWrite fs ("uploads/" ++ filename) image_data,
           Except.ok ("uploads/" ++ filename)) := by
  unfold save_base64_image amendedPayload secondField
  by_cases hp : "data:image".data.isPrefixOf s
  · simp only [hp, if_true]
    rw [pySplit_getElem1]
  · simp [hp]

/-- C6 (counterexample): on a data-URI whose base64 part itself contains
a comma, the code decodes and writes the field between the two commas
(`[0]`), not the decode of the whole portion after the first comma
(`[1]`), so the claim's "only the portion after the first comma is
base64-decoded and written" fails. -/
theorem data_uri_after_first_comma_cex :
    "data:image".data.isPrefixOf twoCommaUri = true ∧
    claimPayload twoCommaUri = some "QUJD,REVG".data ∧
    oC6.b64decode "QUJD,REVG".data = some [1] ∧
    save_base64_image oC6 [] twoCommaUri "f.png" =
      (fsWrite [] "uploads/f.png" [0], Except.ok "uploads/f.png") ∧
    fsLookup (save_base64_image oC6 [] twoCommaUri "f.png").1
        "uploads/f.png" ≠ some [1] := by
  refine ⟨by decide, by decide, by decide, rfl, by decide⟩

/-- C8: the face cropper is pure and total; for every pixel grid and
every bounding box with positive width and height lying within the grid's
extent, cropping returns exactly the sub-image delimited by the box: `h`
rows of `w` pixels, whose entry `(i, j)` is the source entry
`(y + i, x + j)`.  (Purity is inherent: `cropGrid` is a function of its
arguments and the source grid is untouched.) -/
theorem cropper_exact (image : Grid) (b : Box)
    (hw : 0 < b.w) (hh : 0 < b.h)
    (hy : b.y + b.h ≤ image.length)
    (hx : ∀ row ∈ image, b.x + b.w ≤ row.length) :
    (cropGrid image b).length = b.h ∧
    (∀ row ∈ cropGrid image b, row.length = b.w) ∧
    (∀ i j : Nat, i < b.h → j < b.w →
      ((cropGrid image b).getD i []).getD j 0 =
        (image.getD (b.y + i) []).getD (b.x + j) 0) := by
  refine ⟨?_, ?_, ?_⟩
  · simp only [cropGrid, List.length_map, List.length_take, List.length_drop]
    omega
  · intro row hrow
    simp only [cropGrid, List.mem_map] at hrow
    obtain ⟨r, hr, hrow⟩ := hrow
    have hrm : r ∈ image := List.mem_of_mem_drop (List.mem_of_mem_take hr)
    have := hx r hrm
    subst hrow
    simp only [List.length_take, List.length_drop]
    omega
  · intro i j hi hj
    have h1 : (cropGrid image b)[i]? =
        Option.map (fun row => (row.drop b.x).take b.w) image[b.y + i]? := by
      simp [cropGrid, List.getElem?_map, List.getElem?_take, hi,
        List.getElem?_drop]
    have hyi : b.y + i < image.length := by omega
    obtain ⟨row, hrow⟩ : ∃ row, image[b.y + i]? = some row :=
      ⟨image[b.y + i], List.getElem?_eq_getElem hyi⟩
    simp only [List.getD_eq_getElem?_getD]
    rw [h1, hrow]
    simp [List.getElem?_take, hj, List.getElem?_drop]

/-- C8 (witness): cropping a concrete 3×3 grid with the in-bounds box
`(x, y, w, h) = (1, 1, 2, 2)`. -/
theorem cropper_exact_witness :
    (cropGrid [[1, 2, 3], [4, 5, 6], [7, 8, 9]] ⟨1, 1, 2, 2⟩).length = 2 ∧
    (∀ row ∈ cropGrid [[1, 2, 3], [4, 5, 6], [7, 8, 9]] ⟨1, 1, 2, 2⟩,
      row.length = 2) ∧
    (∀ i j : Nat, i < 2 → j < 2 →
      ((cropGrid [[1, 2, 3], [4, 5, 6], [7, 8, 9]] ⟨1, 1, 2, 2⟩).getD i
        []).getD j 0 =
        (([[1, 2, 3], [4, 5, 6], [7, 8, 9]] : Grid).getD (1 + i) []).getD
          (1 + j) 0) :=
  cropper_exact [[1, 2, 3], [4, 5, 6], [7, 8, 9]] ⟨1, 1, 2, 2⟩
    (by decide) (by decide) (by decide) (by decide)

/-- C3: for every JSON payload missing any of the required fields, the
endpoint returns the missing-fields failure with client-error status and
the scratch storage is returned unchanged — no write happens before the
missing-field check rejects the request. -/
theorem missing_fields_no_artifacts (o : Oracles) (fs : FS) (req : Request)
    (uuid : String) (hjson : req.isJson = true)
    (hmiss : req.data.userId = none ∨ req.data.license_base64 = none ∨
      req.data.selfie_base64 = none) :
    verify o fs req uuid =
      (fs, { verified := false, error := some "Missing required fields",
             status := 400 }) := by
  rcases req with ⟨j, u, l, s⟩
  simp only at hjson
  subst hjson
  rcases u with _ | uid <;> rcases l with _ | lic <;> rcases s with _ | sel <;>
    simp_all [verify]

/-- C1: the decision policy is a pure comparison of the scored distance
against the fixed threshold 0.55 with the reference polarity: for every
distance `d` returned by the scorer, the request is verified iff
`d ≥ 0.55`; when `d ≥ 0.55` the result is verified with the score
included, and when `d < 0.55` the result is not verified with the score
still included. -/
theorem decision_policy (o : Oracles) (fs fs1 fs2 : FS) (lp sp lf sf : String)
    (d : ℚ)
    (h1 : extract_face o fs lp = (fs1, Except.ok lf))
    (h2 : extract_face o fs1 sp = (fs2, Except.ok sf))
    (h3 : o.deepVerify (fsLookup fs2 lf) (fsLookup fs2 sf) = Except.ok d) :
    ((match_faces o fs lp sp).2.verified = true ↔ SIMILARITY_THRESHOLD ≤ d) ∧
    (match_faces o fs lp sp).2.similarity_score = some d ∧
    (SIMILARITY_THRESHOLD ≤ d →
      (match_faces o fs lp sp).2 =
        { verified := true, similarity_score := some d }) ∧
    (d < SIMILARITY_THRESHOLD →
      (match_faces o fs lp sp).2 =
        { verified := false, error := some "Face verification failed",
          similarity_score := some d }) := by
  have hb : match_faces o fs lp sp =
      if SIMILARITY_THRESHOLD ≤ d then
        (fs2, { verified := true, similarity_score := some d })
      else
        (fs2, { verified := false, error := some "Face verification failed",
                similarity_score := some d }) := by
    by_cases hd : SIMILARITY_THRESHOLD ≤ d <;>
      simp [match_faces, match_faces_body, h1, h2, h3, hd]
  by_cases hd : SIMILARITY_THRESHOLD ≤ d
  · rw [hb, if_pos hd]
    exact ⟨by simp [hd], rfl, fun _ => rfl,
      fun hlt => absurd hd (not_le.mpr hlt)⟩
  · rw [hb, if_neg hd]
    exact ⟨by simp [hd], rfl, fun hle => absurd hle hd, fun _ => rfl⟩

/-- C1 (witness): with the all-success oracle and distance 3/2 ≥ 0.55,
the concrete request is verified and carries the score. -/
theorem decision_policy_witness :
    ((match_faces oOk fsW "uploads/a.png" "uploads/b.png").2.verified =
        true ↔ SIMILARITY_THRESHOLD ≤ mkRat 3 2) ∧
    (match_faces oOk fsW "uploads/a.png" "uploads/b.png").2.similarity_score =
      some (mkRat 3 2) ∧
    (SIMILARITY_THRESHOLD ≤ mkRat 3 2 →
      (match_faces oOk fsW "uploads/a.png" "uploads/b.png").2 =
        { verified := true, similarity_score := some (mkRat 3 2) }) ∧
    (mkRat 3 2 < SIMILARITY_THRESHOLD →
      (match_faces oOk fsW "uploads/a.png" "uploads/b.png").2 =
        { verified := false, error := some "Face verification failed",
          similarity_score := some (mkRat 3 2) }) :=
  decision_policy oOk fsW
    (("uploads/a_cropped.png", [9]) :: fsW)
    (("uploads/b_cropped.png", [9]) :: ("uploads/a_cropped.png", [9]) :: fsW)
    "uploads/a.png" "uploads/b.png"
    "uploads/a_cropped.png" "uploads/b_cropped.png" (mkRat 3 2)
    rfl rfl rfl

/-- C2: the result of `match_faces` carries a populated similarity score
iff both faces were successfully located (both extractions returned a
cropped-face path) and the scoring capability returned a distance; in
every failure branch the score is absent, so no result pairs an error
code with a score that was not produced by a successful comparison. -/
theorem score_iff_scored (o : Oracles) (fs : FS) (lp sp : String) :
    (match_faces o fs lp sp).2.similarity_score.isSome = true ↔
      ∃ fs1 lf fs2 sf d,
        extract_face o fs lp = (fs1, Except.ok lf) ∧
        extract_face o fs1 sp = (fs2, Except.ok sf) ∧
        o.deepVerify (fsLookup fs2 lf) (fsLookup fs2 sf) = Except.ok d := by
  rcases h1 : extract_face o fs lp with ⟨fs1, e1 | lf⟩
  · simp [match_faces, match_faces_body, h1]
  · rcases h2 : extract_face o fs1 sp with ⟨fs2, e2 | sf⟩
    · simp [match_faces, match_faces_body, h1, h2]
    · rcases h3 : o.deepVerify (fsLookup fs2 lf) (fsLookup fs2 sf) with e3 | d
      · simp [match_faces, match_faces_body, h1, h2, h3]
      · by_cases hd : SIMILARITY_THRESHOLD ≤ d <;>
        · simp [match_faces, match_faces_body, h1, h2, h3, hd]
          exact ⟨fs1, lf, ⟨rfl, rfl⟩, fs2, sf, h2, d, h3⟩

/-- C3 (witness): a concrete JSON request lacking `userId` is rejected
with the missing-fields failure and writes nothing. -/
theorem missing_fields_no_artifacts_witness :
    reqNoUser.isJson = true ∧
    verify oOk fsW reqNoUser "U" =
      (fsW, { verified := false, error := some "Missing required fields",
              status := 400 }) :=
  ⟨rfl, missing_fields_no_artifacts oOk fsW reqNoUser "U" rfl (Or.inl rfl)⟩

/-! Character-level facts about the generated file paths. -/

theorem pyReplaceDot_append (repl a b : List Char) :
    pyReplaceDot repl (a ++ b) =
      pyReplaceDot repl a ++ pyReplaceDot repl b := by
  simp [pyReplaceDot]

theorem pyReplaceDot_no_dot (repl : List Char) (s : List Char)
    (h : '.' ∉ s) : pyReplaceDot repl s = s := by
  induction s with
  | nil => rfl
  | cons c rest ih =>
    have hc : c ≠ '.' := fun hc => h (hc ▸ List.mem_cons_self c rest)
    have hr : '.' ∉ rest := fun hm => h (List.mem_cons_of_mem c hm)
    simp [pyReplaceDot, hc] at ih ⊢
    exact ih hr

theorem license_path_data (uid u : String) :
    (license_path_of uid u).data =
      ("uploads/".data ++ uid.data ++ "_".data) ++
        (u.data ++ "_license.png".data) := by
  simp [license_path_of, String.data_append, List.append_assoc]

theorem selfie_path_data (uid u : String) :
    (selfie_path_of uid u).data =
      ("uploads/".data ++ uid.data ++ "_".data) ++
        (u.data ++ "_selfie.png".data) := by
  simp [selfie_path_of, String.data_append, List.append_assoc]

theorem cropped_license_path_data (uid u : String) (hu : '.' ∉ u.data) :
    (cropped_path (license_path_of uid u)).data =
      ("uploads/".data ++ pyReplaceDot "_cropped.".data uid.data ++
        "_".data) ++ (u.data ++ "_license_cropped.png".data) := by
  have h1 : pyReplaceDot "_cropped.".data "uploads/".data =
      "uploads/".data := by decide
  have h2 : pyReplaceDot "_cropped.".data "_".data = "_".data := by decide
  have h3 : pyReplaceDot "_cropped.".data "_license.png".data =
      "_license_cropped.png".data := by decide
  have h4 := pyReplaceDot_no_dot "_cropped.".data u.data hu
  have hd : (license_path_of uid u).data =
      "uploads/".data ++ (uid.data ++ ("_".data ++
        (u.data ++ "_license.png".data))) := by
    simp only [license_path_of, String.data_append, List.append_assoc]
  show pyReplaceDot "_cropped.".data (license_path_of uid u).data = _
  rw [hd, pyReplaceDot_append, pyReplaceDot_append, pyReplaceDot_append,
    pyReplaceDot_append, h1, h2, h3, h4]
  simp only [List.append_assoc]

theorem cropped_selfie_path_data (uid u : String) (hu : '.' ∉ u.data) :
    (cropped_path (selfie_path_of uid u)).data =
      ("uploads/".data ++ pyReplaceDot "_cropped.".data uid.data ++
        "_".data) ++ (u.data ++ "_selfie_cropped.png".data) := by
  have h1 : pyReplaceDot "_cropped.".data "uploads/".data =
      "uploads/".data := by decide
  have h2 : pyReplaceDot "_cropped.".data "_".data = "_".data := by decide
  have h3 : pyReplaceDot "_cropped.".data "_selfie.png".data =
      "_selfie_cropped.png".data := by decide
  have h4 := pyReplaceDot_no_dot "_cropped.".data u.data hu
  have hd : (selfie_path_of uid u).data =
      "uploads/".data ++ (uid.data ++ ("_".data ++
        (u.data ++ "_selfie.png".data))) := by
    simp only [selfie_path_of, String.data_append, List.append_assoc]
  show pyReplaceDot "_cropped.".data (selfie_path_of uid u).data = _
  rw [hd, pyReplaceDot_append, pyReplaceDot_append, pyReplaceDot_append,
    pyReplaceDot_append, h1, h2, h3, h4]
  simp only [List.append_assoc]

/-- Middle segments of two equal `front ++ (middle ++ back)` lists with
the same back and same middle length agree. -/
theorem mid_eq_of_shape_eq (A1 A2 u1 u2 S : List Char)
    (h : A1 ++ (u1 ++ S) = A2 ++ (u2 ++ S))
    (hlen : u1.length = u2.length) : u1 = u2 := by
  have hA : A1.length = A2.length := by
    have hl := congrArg List.length h
    simp only [List.length_append] at hl
    omega
  obtain ⟨-, h2⟩ := List.append_inj h hA
  exact (List.append_inj h2 hlen).1

/-- Lists of the shape `front ++ (middle ++ back)` with suffix-incompatible
backs are distinct. -/
theorem shape_ne_of_suffix_incompat (A1 A2 u1 u2 S1 S2 : List Char)
    (hS : ¬ (S1 <:+ S2 ∨ S2 <:+ S1)) :
    A1 ++ (u1 ++ S1) ≠ A2 ++ (u2 ++ S2) := by
  intro h
  have hs1 : S1 <:+ A2 ++ (u2 ++ S2) :=
    h ▸ (List.suffix_append u1 S1).trans (List.suffix_append A1 (u1 ++ S1))
  have hs2 : S2 <:+ A2 ++ (u2 ++ S2) :=
    (List.suffix_append u2 S2).trans (List.suffix_append A2 (u2 ++ S2))
  exact hS (List.suffix_or_suffix_of_suffix hs1 hs2)

theorem reqSuffixes_compat (S1 S2 : List Char)
    (h1 : S1 ∈ reqSuffixes) (h2 : S2 ∈ reqSuffixes) :
    S1 = S2 ∨ ¬ (S1 <:+ S2 ∨ S2 <:+ S1) := by
  fin_cases h1 <;> fin_cases h2 <;>
    first
      | exact Or.inl rfl
      | exact Or.inr (by decide)

theorem requestPaths_shape (uid u : String) (hu : '.' ∉ u.data) :
    ∀ p ∈ requestPaths uid u,
      ∃ A S, p.data = A ++ (u.data ++ S) ∧ S ∈ reqSuffixes := by
  intro p hp
  simp only [requestPaths, List.mem_cons, List.not_mem_nil, or_false] at hp
  rcases hp with hp | hp | hp | hp <;> subst hp
  · exact ⟨_, _, license_path_data uid u, by simp [reqSuffixes]⟩
  · exact ⟨_, _, selfie_path_data uid u, by simp [reqSuffixes]⟩
  · exact ⟨_, _, cropped_license_path_data uid u hu, by simp [reqSuffixes]⟩
  · exact ⟨_, _, cropped_selfie_path_data uid u hu, by simp [reqSuffixes]⟩

theorem requestPaths_disjoint (uid1 u1 uid2 u2 : String)
    (hd1 : '.' ∉ u1.data) (hd2 : '.' ∉ u2.data)
    (hlen : u1.length = u2.length) (hne : u1 ≠ u2) :
    ∀ p, p ∈ requestPaths uid1 u1 → p ∉ requestPaths uid2 u2 := by
  intro p hp1 hp2
  obtain ⟨A1, S1, hq1, hS1⟩ := requestPaths_shape uid1 u1 hd1 p hp1
  obtain ⟨A2, S2, hq2, hS2⟩ := requestPaths_shape uid2 u2 hd2 p hp2
  have heq : A1 ++ (u1.data ++ S1) = A2 ++ (u2.data ++ S2) := by
    rw [← hq1, ← hq2]
  rcases reqSuffixes_compat S1 S2 hS1 hS2 with hcs | hcs
  · subst hcs
    have hlen' : u1.data.length = u2.data.length := hlen
    exact hne (String.ext (mid_eq_of_shape_eq A1 A2 _ _ S1 heq hlen'))
  · exact shape_ne_of_suffix_incompat A1 A2 _ _ S1 S2 hcs heq

/-- Per-request license and selfie upload paths never coincide. -/
theorem license_ne_selfie_path (uid u : String) :
    license_path_of uid u ≠ selfie_path_of uid u := by
  intro h
  have hdq : (license_path_of uid u).data = (selfie_path_of uid u).data :=
    congrArg String.data h
  rw [license_path_data, selfie_path_data] at hdq
  exact shape_ne_of_suffix_incompat _ _ u.data u.data
    "_license.png".data "_selfie.png".data (by decide) hdq

/-! Characterizations of the storage effects of each stage. -/

theorem save_ok_iff (o : Oracles) (fs : FS) (s : List Char) (fn : String)
    (fs' : FS) (p : String)
    (h : save_base64_image o fs s fn = (fs', Except.ok p)) :
    p = "uploads/" ++ fn ∧ ∃ b, fs' = fsWrite fs ("uploads/" ++ fn) b := by
  simp only [save_base64_image] at h
  rcases hpl : (if "data:image".data.isPrefixOf s then (pySplit ',' s)[1]?
      else some s) with _ | pl
  · rw [hpl] at h
    simp at h
  · rw [hpl] at h
    rcases hb : o.b64decode pl with _ | bytes
    · simp only [hb] at h
      simp at h
    · simp only [hb] at h
      simp only [Prod.mk.injEq, Except.ok.injEq] at h
      exact ⟨h.2.symm, bytes, h.1.symm⟩

theorem save_error_fs (o : Oracles) (fs : FS) (s : List Char) (fn : String)
    (fs' : FS) (e : String)
    (h : save_base64_image o fs s fn = (fs', Except.error e)) : fs' = fs := by
  simp only [save_base64_image] at h
  rcases hpl : (if "data:image".data.isPrefixOf s then (pySplit ',' s)[1]?
      else some s) with _ | pl
  · rw [hpl] at h
    simp only [Prod.mk.injEq] at h
    exact h.1.symm
  · rw [hpl] at h
    rcases hb : o.b64decode pl with _ | bytes
    · simp only [hb] at h
      simp only [Prod.mk.injEq] at h
      exact h.1.symm
    · simp only [hb] at h
      simp at h

theorem extract_fs_cases (o : Oracles) (fs : FS) (p : String) :
    (extract_face o fs p).1 = fs ∨
    ∃ b, (extract_face o fs p).1 = fsWrite fs (cropped_path p) b := by
  rcases h : (fsLookup fs p).bind o.imdecode with _ | img
  · left
    simp [extract_face, h]
  · rcases h2 : detectMultiScale o.rawDetect (o.toGray img) 50 50 with _ | ⟨b, bs⟩
    · left
      simp [extract_face, h, h2]
    · right
      exact ⟨o.imencode (cropGrid img b), by simp [extract_face, h, h2]⟩

theorem match_faces_fs_eq (o : Oracles) (fs : FS) (lp sp : String) :
    (match_faces o fs lp sp).1 = (match_faces_body o fs lp sp).1 := by
  unfold match_faces
  rcases h : match_faces_body o fs lp sp with ⟨fs1, r⟩
  rcases r with e | v <;> simp [h]

theorem match_faces_body_fs (o : Oracles) (fs : FS) (lp sp : String) :
    (match_faces_body o fs lp sp).1 = (extract_face o fs lp).1 ∨
    (match_faces_body o fs lp sp).1 =
      (extract_face o (extract_face o fs lp).1 sp).1 := by
  unfold match_faces_body
  rcases h1 : extract_face o fs lp with ⟨fs1, r1⟩
  rcases r1 with e1 | lf
  · left
    simp [h1]
  · rcases h2 : extract_face o fs1 sp with ⟨fs2, r2⟩
    right
    rcases r2 with e2 | sf
    · simp [h1, h2]
    · rcases h3 : o.deepVerify (fsLookup fs2 lf) (fsLookup fs2 sf) with e3 | d
      · simp [h1, h2, h3]
      · by_cases hd : SIMILARITY_THRESHOLD ≤ d <;> simp [h1, h2, h3, hd]

theorem fsHas_mono_write (fs : FS) (p q : String) (b : Bytes)
    (h : fsHas fs q = true) : fsHas (fsWrite fs p b) q = true := by
  simp only [fsHas, fsWrite, List.any_cons, Bool.or_eq_true]
  exact Or.inr h

theorem extract_fs_mono (o : Oracles) (fs : FS) (p q : String)
    (h : fsHas fs q = true) : fsHas (extract_face o fs p).1 q = true := by
  rcases extract_fs_cases o fs p with he | ⟨b, he⟩ <;> rw [he]
  · exact h
  · exact fsHas_mono_write fs _ q b h

theorem extract_fs_new (o : Oracles) (fs : FS) (p q : String)
    (h : fsHas (extract_face o fs p).1 q = true) :
    fsHas fs q = true ∨ q = cropped_path p := by
  rcases extract_fs_cases o fs p with he | ⟨b, he⟩
  · rw [he] at h
    exact Or.inl h
  · rw [he] at h
    simp only [fsHas, fsWrite, List.any_cons, Bool.or_eq_true] at h
    rcases h with h | h
    · exact Or.inr (eq_of_beq h).symm
    · exact Or.inl h

theorem match_faces_fs_cases (o : Oracles) (fs : FS) (lp sp : String) :
    ∀ q, fsHas (match_faces o fs lp sp).1 q = true →
      fsHas fs q = true ∨ q = cropped_path lp ∨ q = cropped_path sp := by
  intro q hq
  rw [match_faces_fs_eq] at hq
  rcases match_faces_body_fs o fs lp sp with he | he <;> rw [he] at hq
  · rcases extract_fs_new o fs lp q hq with h | h
    · exact Or.inl h
    · exact Or.inr (Or.inl h)
  · rcases extract_fs_new o _ sp q hq with h | h
    · rcases extract_fs_new o fs lp q h with h2 | h2
      · exact Or.inl h2
      · exact Or.inr (Or.inl h2)
    · exact Or.inr (Or.inr h)

theorem match_faces_fs_mono (o : Oracles) (fs : FS) (lp sp q : String)
    (h : fsHas fs q = true) :
    fsHas (match_faces o fs lp sp).1 q = true := by
  rw [match_faces_fs_eq]
  rcases match_faces_body_fs o fs lp sp with he | he <;> rw [he]
  · exact extract_fs_mono o fs lp q h
  · exact extract_fs_mono o _ sp q (extract_fs_mono o fs lp q h)

/-- Helper: when the request is JSON, carries all three fields and both
uploads save successfully, the endpoint returns exactly the `match_faces`
result in a status-200 envelope. -/
theorem verify_reaches_match (o : Oracles) (fs fs1 fs2 : FS) (req : Request)
    (uuid uid : String) (lic sel : List Char) (lpath spath : String)
    (hjson : req.isJson = true)
    (hdata : req.data = ⟨some uid, some lic, some sel⟩)
    (hs1 : save_base64_image o fs lic
      (uid ++ "_" ++ uuid ++ "_license.png") = (fs1, Except.ok lpath))
    (hs2 : save_base64_image o fs1 sel
      (uid ++ "_" ++ uuid ++ "_selfie.png") = (fs2, Except.ok spath)) :
    verify o fs req uuid =
      ((match_faces o fs2 lpath spath).1,
       { verified := (match_faces o fs2 lpath spath).2.verified,
         error := (match_faces o fs2 lpath spath).2.error,
         similarity_score := (match_faces o fs2 lpath spath).2.similarity_score,
         status := 200 }) := by
  rcases req with ⟨j, data⟩
  simp only at hjson hdata
  subst hjson
  subst hdata
  simp only [verify, hs1, hs2]
  rcases hm : match_faces o fs2 lpath spath with ⟨fs3, r⟩
  simp [hm]

/-- C4 (amended): for every request whose document image decodes from
base64 but is not a decodable raster, and for every selfie whose base64
decodes, the pipeline returns the single document-decode failure in a
status-200 envelope whose body does not depend on the selfie bytes; the
selfie upload is written to scratch storage before matching begins, but
the selfie is never raster-decoded or face-located — the final storage
holds exactly the two uploads and no cropped artifact. -/
theorem document_decode_failure (o : Oracles) (fs : FS) (req : Request)
    (uid uuid : String) (lic sel : List Char) (lb sb : Bytes)
    (hjson : req.isJson = true)
    (hdata : req.data = ⟨some uid, some lic, some sel⟩)
    (hnp1 : "data:image".data.isPrefixOf lic = false)
    (hnp2 : "data:image".data.isPrefixOf sel = false)
    (hlb : o.b64decode lic = some lb)
    (hsb : o.b64decode sel = some sb)
    (hbad : o.imdecode lb = none) :
    verify o fs req uuid =
      (fsWrite (fsWrite fs (license_path_of uid uuid) lb)
         (selfie_path_of uid uuid) sb,
       { verified := false,
         error := some "License image error: Could not read image",
         similarity_score := none, status := 200 }) := by
  have hs1 : save_base64_image o fs lic
      (uid ++ "_" ++ uuid ++ "_license.png") =
      (fsWrite fs (license_path_of uid uuid) lb,
       Except.ok (license_path_of uid uuid)) := by
    simp [save_base64_image, hnp1, hlb, license_path_of]
  have hs2 : save_base64_image o
      (fsWrite fs (license_path_of uid uuid) lb) sel
      (uid ++ "_" ++ uuid ++ "_selfie.png") =
      (fsWrite (fsWrite fs (license_path_of uid uuid) lb)
        (selfie_path_of uid uuid) sb,
       Except.ok (selfie_path_of uid uuid)) := by
    simp [save_base64_image, hnp2, hsb, selfie_path_of]
  rw [verify_reaches_match o fs _ _ req uuid uid lic sel _ _ hjson hdata
    hs1 hs2]
  have hne : (selfie_path_of uid uuid == license_path_of uid uuid) = false :=
    beq_eq_false_iff_ne.mpr (Ne.symm (license_ne_selfie_path uid uuid))
  have hlook : fsLookup
      (fsWrite (fsWrite fs (license_path_of uid uuid) lb)
        (selfie_path_of uid uuid) sb) (license_path_of uid uuid) =
      some lb := by
    simp [fsLookup, fsWrite, List.find?, hne]
  have hext : extract_face o
      (fsWrite (fsWrite fs (license_path_of uid uuid) lb)
        (selfie_path_of uid uuid) sb) (license_path_of uid uuid) =
      (fsWrite (fsWrite fs (license_path_of uid uuid) lb)
        (selfie_path_of uid uuid) sb,
       Except.error "Could not read image") := by
    simp [extract_face, hlook, hbad]
  have hm : match_faces o
      (fsWrite (fsWrite fs (license_path_of uid uuid) lb)
        (selfie_path_of uid uuid) sb)
      (license_path_of uid uuid) (selfie_path_of uid uuid) =
      (fsWrite (fsWrite fs (license_path_of uid uuid) lb)
        (selfie_path_of uid uuid) sb,
       { verified := false,
         error := some "License image error: Could not read image",
         similarity_score := none }) := by
    simp [match_faces, match_faces_body, hext]
  rw [hm]

/-- C4 (counterexample): with a document image that is not a decodable
raster, the endpoint reports the document-decode failure, yet the selfie
upload HAS been written to scratch storage, contradicting the claim that
the selfie is not written. -/
theorem selfie_written_on_document_failure_cex :
    (verify oNoRaster [] reqFull "U").2.error =
      some "License image error: Could not read image" ∧
    fsHas (verify oNoRaster [] reqFull "U").1 "uploads/u1_U_selfie.png" =
      true := by
  exact ⟨by decide, by decide⟩

/-- C4 (witness): the amended theorem instantiated at the concrete
no-raster scenario. -/
theorem document_decode_failure_witness :
    verify oNoRaster [] reqFull "U" =
      (fsWrite (fsWrite [] (license_path_of "u1" "U") [84, 69, 108, 68])
         (selfie_path_of "u1" "U") [85, 48, 86, 77],
       { verified := false,
         error := some "License image error: Could not read image",
         similarity_score := none, status := 200 }) :=
  document_decode_failure oNoRaster [] reqFull "u1" "U"
    "TElD".data "U0VM".data [84, 69, 108, 68] [85, 48, 86, 77]
    rfl rfl (by decide) (by decide) (by decide) (by decide) rfl

theorem save_fs_mono (o : Oracles) (fs : FS) (s : List Char) (fn : String)
    (q : String) (h : fsHas fs q = true) :
    fsHas (save_base64_image o fs s fn).1 q = true := by
  rcases hs : save_base64_image o fs s fn with ⟨fs', r⟩
  show fsHas fs' q = true
  rcases r with e | p
  · rw [save_error_fs o fs s fn fs' e hs]
    exact h
  · obtain ⟨-, b, hb⟩ := save_ok_iff o fs s fn fs' p hs
    rw [hb]
    exact fsHas_mono_write fs _ q b h

theorem save_fs_new (o : Oracles) (fs : FS) (s : List Char) (fn : String)
    (q : String) (h : fsHas (save_base64_image o fs s fn).1 q = true) :
    fsHas fs q = true ∨ q = "uploads/" ++ fn := by
  rcases hs : save_base64_image o fs s fn with ⟨fs', r⟩
  rw [hs] at h
  replace h : fsHas fs' q = true := h
  rcases r with e | p
  · rw [save_error_fs o fs s fn fs' e hs] at h
    exact Or.inl h
  · obtain ⟨-, b, hb⟩ := save_ok_iff o fs s fn fs' p hs
    rw [hb] at h
    simp only [fsHas, fsWrite, List.any_cons, Bool.or_eq_true] at h
    rcases h with h | h
    · exact Or.inr (eq_of_beq h).symm
    · exact Or.inl h

theorem verify_fs_mono (o : Oracles) (fs : FS) (req : Request)
    (uuid : String) (q : String) (h : fsHas fs q = true) :
    fsHas (verify o fs req uuid).1 q = true := by
  rcases req with ⟨j, u, l, s⟩
  rcases j
  · simpa [verify] using h
  · rcases u with _ | uid
    · simpa [verify] using h
    · rcases l with _ | lic
      · simpa [verify] using h
      · rcases s with _ | sel
        · simpa [verify] using h
        · rcases hs1 : save_base64_image o fs lic
            (uid ++ "_" ++ uuid ++ "_license.png") with ⟨fs1, r1⟩
          have hm1 : fsHas fs1 q = true := by
            have hmono := save_fs_mono o fs lic
              (uid ++ "_" ++ uuid ++ "_license.png") q h
            rw [hs1] at hmono
            exact hmono
          rcases r1 with e1 | lpath
          · simp only [verify, hs1]
            exact hm1
          · rcases hs2 : save_base64_image o fs1 sel
              (uid ++ "_" ++ uuid ++ "_selfie.png") with ⟨fs2, r2⟩
            have hm2 : fsHas fs2 q = true := by
              have hmono := save_fs_mono o fs1 sel
                (uid ++ "_" ++ uuid ++ "_selfie.png") q hm1
              rw [hs2] at hmono
              exact hmono
            rcases r2 with e2 | spath
            · simp only [verify, hs1, hs2]
              exact hm2
            · simp only [verify, hs1, hs2]
              have hmm := match_faces_fs_mono o fs2 lpath spath q hm2
              rcases hm : match_faces o fs2 lpath spath with ⟨fs3, r⟩
              rw [hm] at hmm
              exact hmm

theorem verify_fs_new (o : Oracles) (fs : FS) (req : Request)
    (uuid : String) (q : String)
    (h : fsHas (verify o fs req uuid).1 q = true) :
    fsHas fs q = true ∨
    ∃ uid lic sel, req.data = ⟨some uid, some lic, some sel⟩ ∧
      q ∈ requestPaths uid uuid := by
  rcases req with ⟨j, u, l, s⟩
  rcases j
  · simp [verify] at h
    exact Or.inl h
  · rcases u with _ | uid
    · simp [verify] at h
      exact Or.inl h
    · rcases l with _ | lic
      · simp [verify] at h
        exact Or.inl h
      · rcases s with _ | sel
        · simp [verify] at h
          exact Or.inl h
        · have hmemL : license_path_of uid uuid ∈ requestPaths uid uuid := by
            simp [requestPaths]
          have hmemS : selfie_path_of uid uuid ∈ requestPaths uid uuid := by
            simp [requestPaths]
          have hmemLC : cropped_path (license_path_of uid uuid) ∈
              requestPaths uid uuid := by
            simp [requestPaths]
          have hmemSC : cropped_path (selfie_path_of uid uuid) ∈
              requestPaths uid uuid := by
            simp [requestPaths]
          rcases hs1 : save_base64_image o fs lic
            (uid ++ "_" ++ uuid ++ "_license.png") with ⟨fs1, r1⟩
          have hstep1 : fsHas fs1 q = true →
              fsHas fs q = true ∨
              ∃ uid' lic' sel',
                (⟨some uid, some lic, some sel⟩ : Payload) =
                  ⟨some uid', some lic', some sel'⟩ ∧
                q ∈ requestPaths uid' uuid := by
            intro hh
            have hnew := save_fs_new o fs lic
              (uid ++ "_" ++ uuid ++ "_license.png") q (by rw [hs1]; exact hh)
            rcases hnew with hnew | hnew
            · exact Or.inl hnew
            · exact Or.inr ⟨uid, lic, sel, rfl, by rw [hnew]; exact hmemL⟩
          rcases r1 with e1 | lpath
          · simp only [verify, hs1] at h
            exact hstep1 h
          · obtain ⟨hpl, bl, hfs1⟩ := save_ok_iff o fs lic
              (uid ++ "_" ++ uuid ++ "_license.png") fs1 lpath hs1
            rcases hs2 : save_base64_image o fs1 sel
              (uid ++ "_" ++ uuid ++ "_selfie.png") with ⟨fs2, r2⟩
            have hstep2 : fsHas fs2 q = true →
                fsHas fs q = true ∨
                ∃ uid' lic' sel',
                  (⟨some uid, some lic, some sel⟩ : Payload) =
                    ⟨some uid', some lic', some sel'⟩ ∧
                  q ∈ requestPaths uid' uuid := by
              intro hh
              have hnew := save_fs_new o fs1 sel
                (uid ++ "_" ++ uuid ++ "_selfie.png") q
                (by rw [hs2]; exact hh)
              rcases hnew with hnew | hnew
              · exact hstep1 hnew
              · exact Or.inr ⟨uid, lic, sel, rfl, by rw [hnew]; exact hmemS⟩
            rcases r2 with e2 | spath
            · simp only [verify, hs1, hs2] at h
              exact hstep2 h
            · obtain ⟨hps, bs', hfs2⟩ := save_ok_iff o fs1 sel
                (uid ++ "_" ++ uuid ++ "_selfie.png") fs2 spath hs2
              simp only [verify, hs1, hs2] at h
              rcases hm : match_faces o fs2 lpath spath with ⟨fs3, r⟩
              rw [hm] at h
              replace h : fsHas fs3 q = true := h
              have hcases := match_faces_fs_cases o fs2 lpath spath q
                (by rw [hm]; exact h)
              rcases hcases with hc | hc | hc
              · exact hstep2 hc
              · subst hc
                rw [hpl]
                exact Or.inr ⟨uid, lic, sel, rfl, hmemLC⟩
              · subst hc
                rw [hps]
                exact Or.inr ⟨uid, lic, sel, rfl, hmemSC⟩

/-- C5 (amended): non-JSON bodies, payloads with a missing field, and
payloads whose base64 images fail to decode or save all receive the
client-error status 400; once both uploads are saved, every pipeline
failure (raster decode error, face not found, scoring error, below
threshold) is returned in a status-200 envelope mirroring the
`match_faces` body; no other status is produced (the model is total, so
the server-error branch is never taken). -/
theorem verify_status_partition (o : Oracles) (fs : FS) (req : Request)
    (uuid : String) :
    ((verify o fs req uuid).2.status = 400 ∨
      (verify o fs req uuid).2.status = 200) ∧
    ((verify o fs req uuid).2.status = 200 ↔
      (req.isJson = true ∧ ∃ uid lic sel fs1 lpath fs2 spath,
        req.data.userId = some uid ∧
        req.data.license_base64 = some lic ∧
        req.data.selfie_base64 = some sel ∧
        save_base64_image o fs lic (uid ++ "_" ++ uuid ++ "_license.png") =
          (fs1, Except.ok lpath) ∧
        save_base64_image o fs1 sel (uid ++ "_" ++ uuid ++ "_selfie.png") =
          (fs2, Except.ok spath))) ∧
    (∀ uid lic sel fs1 lpath fs2 spath,
      req.isJson = true →
      req.data = ⟨some uid, some lic, some sel⟩ →
      save_base64_image o fs lic (uid ++ "_" ++ uuid ++ "_license.png") =
        (fs1, Except.ok lpath) →
      save_base64_image o fs1 sel (uid ++ "_" ++ uuid ++ "_selfie.png") =
        (fs2, Except.ok spath) →
      (verify o fs req uuid).2 =
        { verified := (match_faces o fs2 lpath spath).2.verified,
          error := (match_faces o fs2 lpath spath).2.error,
          similarity_score :=
            (match_faces o fs2 lpath spath).2.similarity_score,
          status := 200 }) := by
  rcases req with ⟨j, u, l, s⟩
  rcases j
  · refine ⟨Or.inl (by simp [verify]), by simp [verify], ?_⟩
    intro uid lic sel fs1 lpath fs2 spath hjson
    exact absurd hjson (by simp)
  · rcases u with _ | uid
    · refine ⟨Or.inl (by simp [verify]), by simp [verify], ?_⟩
      intro uid lic sel fs1 lpath fs2 spath _ hdata
      exact absurd hdata (by simp)
    · rcases l with _ | lic
      · refine ⟨Or.inl (by simp [verify]), by simp [verify], ?_⟩
        intro uid' lic sel fs1 lpath fs2 spath _ hdata
        exact absurd hdata (by simp)
      · rcases s with _ | sel
        · refine ⟨Or.inl (by simp [verify]), by simp [verify], ?_⟩
          intro uid' lic' sel fs1 lpath fs2 spath _ hdata
          exact absurd hdata (by simp)
        · rcases hs1 : save_base64_image o fs lic
            (uid ++ "_" ++ uuid ++ "_license.png") with ⟨fs1, r1⟩
          rcases r1 with e1 | lpath
          · refine ⟨Or.inl (by simp [verify, hs1]), ?_, ?_⟩
            · constructor
              · intro hc
                simp [verify, hs1] at hc
              · rintro ⟨-, uid', lic', sel', fs1', lpath', fs2', spath',
                  h1, h2, h3, hsa, hsb⟩
                simp only [Option.some.injEq] at h1 h2 h3
                subst h1
                subst h2
                subst h3
                rw [hs1] at hsa
                simp at hsa
            · intro uid' lic' sel' fs1' lpath' fs2' spath' _ hdata hsa hsb
              simp only [Payload.mk.injEq, Option.some.injEq] at hdata
              obtain ⟨h1, h2, h3⟩ := hdata
              subst h1
              subst h2
              subst h3
              rw [hs1] at hsa
              simp at hsa
          · rcases hs2 : save_base64_image o fs1 sel
              (uid ++ "_" ++ uuid ++ "_selfie.png") with ⟨fs2, r2⟩
            rcases r2 with e2 | spath
            · refine ⟨Or.inl (by simp [verify, hs1, hs2]), ?_, ?_⟩
              · constructor
                · intro hc
                  simp [verify, hs1, hs2] at hc
                · rintro ⟨-, uid', lic', sel', fs1', lpath', fs2', spath',
                    h1, h2, h3, hsa, hsb⟩
                  simp only [Option.some.injEq] at h1 h2 h3
                  subst h1
                  subst h2
                  subst h3
                  rw [hs1] at hsa
                  simp only [Prod.mk.injEq, Except.ok.injEq] at hsa
                  obtain ⟨hf1, hp1⟩ := hsa
                  subst hf1
                  subst hp1
                  rw [hs2] at hsb
                  simp at hsb
              · intro uid' lic' sel' fs1' lpath' fs2' spath' _ hdata hsa hsb
                simp only [Payload.mk.injEq, Option.some.injEq] at hdata
                obtain ⟨h1, h2, h3⟩ := hdata
                subst h1
                subst h2
                subst h3
                rw [hs1] at hsa
                simp only [Prod.mk.injEq, Except.ok.injEq] at hsa
                obtain ⟨hf1, hp1⟩ := hsa
                subst hf1
                subst hp1
                rw [hs2] at hsb
                simp at hsb
            · have hv := verify_reaches_match o fs fs1 fs2
                ⟨true, some uid, some lic, some sel⟩ uuid uid lic sel
                lpath spath rfl rfl hs1 hs2
              refine ⟨Or.inr (by rw [hv]), ?_, ?_⟩
              · constructor
                · intro _
                  exact ⟨rfl, uid, lic, sel, fs1, lpath, fs2, spath,
                    rfl, rfl, rfl, hs1, hs2⟩
                · intro _
                  rw [hv]
              · intro uid' lic' sel' fs1' lpath' fs2' spath' _ hdata hsa hsb
                simp only [Payload.mk.injEq, Option.some.injEq] at hdata
                obtain ⟨h1, h2, h3⟩ := hdata
                subst h1
                subst h2
                subst h3
                rw [hs1] at hsa
                simp only [Prod.mk.injEq, Except.ok.injEq] at hsa
                obtain ⟨hf1, hp1⟩ := hsa
                subst hf1
                subst hp1
                rw [hs2] at hsb
                simp only [Prod.mk.injEq, Except.ok.injEq] at hsb
                obtain ⟨hf2, hp2⟩ := hsb
                subst hf2
                subst hp2
                rw [hv]

/-- C5 (counterexample): a request that is JSON and carries all three
required fields — hence is not malformed in the claim's sense — still
receives the client-error status 400 when its license base64 payload
fails to decode, refuting "only malformed requests receive a client-error
status". -/
theorem status_mapping_cex :
    reqFull.isJson = true ∧
    reqFull.data.userId.isSome = true ∧
    reqFull.data.license_base64.isSome = true ∧
    reqFull.data.selfie_base64.isSome = true ∧
    (verify oB64Fail [] reqFull "U").2.status = 400 :=
  ⟨rfl, rfl, rfl, rfl, by decide⟩

/-- C9: the matching routine is total at its boundary — its try/except
maps every exception the body can raise (the scoring call) to a
verified-false result with a `Processing error` message and an absent
score, and consequently any request that reaches `match_faces` is
answered with status 200, so the endpoint's server-error branch is
unreachable from within `match_faces`.  (Totality itself is structural:
`match_faces` is a function into `MatchResult`, whose `verified` field is
a mandatory boolean.) -/
theorem match_faces_never_raises (o : Oracles) (fs fs1 fs2 : FS)
    (req : Request) (uuid uid : String) (lic sel : List Char)
    (lpath spath : String)
    (hjson : req.isJson = true)
    (hdata : req.data = ⟨some uid, some lic, some sel⟩)
    (hs1 : save_base64_image o fs lic
      (uid ++ "_" ++ uuid ++ "_license.png") = (fs1, Except.ok lpath))
    (hs2 : save_base64_image o fs1 sel
      (uid ++ "_" ++ uuid ++ "_selfie.png") = (fs2, Except.ok spath)) :
    (∀ (fsb fsx : FS) (lp sp e : String),
      match_faces_body o fsb lp sp = (fsx, Except.error e) →
      match_faces o fsb lp sp =
        (fsx, { verified := false,
                error := some ("Processing error: " ++ e),
                similarity_score := none })) ∧
    (verify o fs req uuid).2.status = 200 := by
  constructor
  · intro fsb fsx lp sp e h
    simp [match_faces, h]
  · rw [verify_reaches_match o fs fs1 fs2 req uuid uid lic sel lpath spath
      hjson hdata hs1 hs2]

/-- C9 (witness): the catch/status property instantiated at a concrete
valid request whose uploads both save. -/
theorem match_faces_never_raises_witness :
    (∀ (fsb fsx : FS) (lp sp e : String),
      match_faces_body oOk fsb lp sp = (fsx, Except.error e) →
      match_faces oOk fsb lp sp =
        (fsx, { verified := false,
                error := some ("Processing error: " ++ e),
                similarity_score := none })) ∧
    (verify oOk [] reqFull "U").2.status = 200 :=
  match_faces_never_raises oOk [] [("uploads/u1_U_license.png", [65])]
    [("uploads/u1_U_selfie.png", [65]), ("uploads/u1_U_license.png", [65])]
    reqFull "U" "u1" "TElD".data "U0VM".data
    "uploads/u1_U_license.png" "uploads/u1_U_selfie.png"
    rfl rfl rfl rfl

/-- C7: given a readable image, the face locator fails with the not-found
error exactly when the detector (invoked with the minimum footprint
50×50) returns zero regions; every region it returns measures at least
50×50, and if every raw proposal is smaller than 50×50 the result is
not-found; when regions remain, the first region in the detector's output
order is the one cropped and persisted. -/
theorem locator_policy (o : Oracles) (fs : FS) (p : String) (img : Grid)
    (himg : (fsLookup fs p).bind o.imdecode = some img) :
    ((extract_face o fs p).2 =
        Except.error "No face detected in the image" ↔
      detectMultiScale o.rawDetect (o.toGray img) 50 50 = []) ∧
    (∀ b ∈ detectMultiScale o.rawDetect (o.toGray img) 50 50,
      50 ≤ b.w ∧ 50 ≤ b.h) ∧
    ((∀ b ∈ o.rawDetect (o.toGray img), b.w < 50 ∨ b.h < 50) →
      (extract_face o fs p).2 =
        Except.error "No face detected in the image") ∧
    (∀ b bs, detectMultiScale o.rawDetect (o.toGray img) 50 50 = b :: bs →
      extract_face o fs p =
        (fsWrite fs (cropped_path p) (o.imencode (cropGrid img b)),
         Except.ok (cropped_path p))) := by
  have hmin : ∀ b, b ∈ detectMultiScale o.rawDetect (o.toGray img) 50 50 →
      b ∈ o.rawDetect (o.toGray img) ∧ 50 ≤ b.w ∧ 50 ≤ b.h := by
    intro b hb
    simp only [detectMultiScale, List.mem_filter, Bool.and_eq_true,
      decide_eq_true_eq] at hb
    exact ⟨hb.1, hb.2.1, hb.2.2⟩
  refine ⟨?_, fun b hb => (hmin b hb).2, ?_, ?_⟩
  · constructor
    · intro h
      rcases hfd : detectMultiScale o.rawDetect (o.toGray img) 50 50
        with _ | ⟨b, bs⟩
      · rfl
      · exfalso
        simp [extract_face, himg, hfd] at h
    · intro hf
      simp [extract_face, himg, hf]
  · intro hsmall
    have hf : detectMultiScale o.rawDetect (o.toGray img) 50 50 = [] := by
      rcases hfd : detectMultiScale o.rawDetect (o.toGray img) 50 50
        with _ | ⟨b, bs⟩
      · rfl
      · exfalso
        have hbmem : b ∈ detectMultiScale o.rawDetect (o.toGray img) 50 50 := by
          rw [hfd]
          exact List.mem_cons_self _ _
        obtain ⟨hraw, hw, hh⟩ := hmin b hbmem
        rcases hsmall b hraw with hlt | hlt <;> omega
    simp [extract_face, himg, hf]
  · intro b bs hfd
    simp [extract_face, himg, hfd]

/-- C7 (witness): the locator policy at a concrete readable image whose
detector proposes one sub-minimum region and one region exactly at the
50×50 boundary. -/
theorem locator_policy_witness :
    ((extract_face oOk fsW "uploads/a.png").2 =
        Except.error "No face detected in the image" ↔
      detectMultiScale oOk.rawDetect (oOk.toGray [[0, 0], [0, 0]]) 50 50 =
        []) ∧
    (∀ b ∈ detectMultiScale oOk.rawDetect (oOk.toGray [[0, 0], [0, 0]]) 50 50,
      50 ≤ b.w ∧ 50 ≤ b.h) ∧
    ((∀ b ∈ oOk.rawDetect (oOk.toGray [[0, 0], [0, 0]]),
        b.w < 50 ∨ b.h < 50) →
      (extract_face oOk fsW "uploads/a.png").2 =
        Except.error "No face detected in the image") ∧
    (∀ b bs,
      detectMultiScale oOk.rawDetect (oOk.toGray [[0, 0], [0, 0]]) 50 50 =
        b :: bs →
      extract_face oOk fsW "uploads/a.png" =
        (fsWrite fsW (cropped_path "uploads/a.png")
          (oOk.imencode (cropGrid [[0, 0], [0, 0]] b)),
         Except.ok (cropped_path "uploads/a.png"))) :=
  locator_policy oOk fsW "uploads/a.png" [[0, 0], [0, 0]] rfl

/-- C10: scratch storage is append-only for the pipeline — every path
present before a request is still present after it, every path a request
adds is one of its four request paths (the two uploads and their cropped
copies), and two requests with distinct generated identifiers (uuid4
strings: same length, no dot) have disjoint request-path sets, whatever
their caller-supplied user ids. -/
theorem scratch_append_only (o : Oracles) (fs : FS) (req : Request)
    (uuid : String) (uid1 u1 uid2 u2 : String)
    (hdot1 : '.' ∉ u1.data) (hdot2 : '.' ∉ u2.data)
    (hlen : u1.length = u2.length) (hne : u1 ≠ u2) :
    (∀ q, fsHas fs q = true → fsHas (verify o fs req uuid).1 q = true) ∧
    (∀ q, fsHas (verify o fs req uuid).1 q = true →
      fsHas fs q = true ∨
      ∃ uid lic sel, req.data = ⟨some uid, some lic, some sel⟩ ∧
        q ∈ requestPaths uid uuid) ∧
    (∀ q, q ∈ requestPaths uid1 u1 → q ∉ requestPaths uid2 u2) :=
  ⟨fun q h => verify_fs_mono o fs req uuid q h,
   fun q h => verify_fs_new o fs req uuid q h,
   fun q h1 h2 =>
     requestPaths_disjoint uid1 u1 uid2 u2 hdot1 hdot2 hlen hne q h1 h2⟩

/-- C10 (witness): the append-only/disjointness property at a concrete
request and two concrete distinct single-character uuids. -/
theorem scratch_append_only_witness :
    (∀ q, fsHas fsW q = true →
      fsHas (verify oOk fsW reqFull "U").1 q = true) ∧
    (∀ q, fsHas (verify oOk fsW reqFull "U").1 q = true →
      fsHas fsW q = true ∨
      ∃ uid lic sel, reqFull.data = ⟨some uid, some lic, some sel⟩ ∧
        q ∈ requestPaths uid "U") ∧
    (∀ q, q ∈ requestPaths "u1" "A" → q ∉ requestPaths "u2" "B") :=
  scratch_append_only oOk fsW reqFull "U" "u1" "A" "u2" "B"
    (by decide) (by decide) rfl (by decide)

end EVenture
